import Mathlib

/-!
Verification of the metrics aggregation engine of the Singularity Tracker
backend (src/main.py).

Modelling conventions:
* Python floats are modelled as exact rationals (`ℚ`); the claims under
  scrutiny are algebraic (clamping, averaging, weighted sums, thresholds),
  not about IEEE rounding.
* A Python dict of numeric fields is modelled as `String → Option ℚ`;
  `d[k]` lookup is application, a missing key is `none` (a `KeyError`).
* Each source adapter is modelled as a function of an environment
  describing the outcomes of its outbound calls (`Call`): the call raises
  an exception, returns a non-200 status, or returns a parsed payload.
  A `try` body is a computation in `Option` (`none` = an exception reached
  the adapter's `except` handler); the handler assigns every field the
  adapter owns, so it is modelled as returning the fresh default dict.
* `asyncio.gather` over pure models is plain application; the interleaving
  of concurrent requests to the read endpoint is modelled explicitly by a
  small-step scheduler further below.
-/

/-- A Python dict with string keys and float values. -/
def Dict : Type := String → Option ℚ

/-- `d[k] = v` assignment on a dict. -/
def dset (d : Dict) (k : String) (v : ℚ) : Dict :=
  fun k2 => if k2 = k then some v else d k2

/-- The empty dict `{}`. -/
def dempty : Dict := fun _ => none

/-- Outcome of one outbound HTTP-style call: the request (or the parsing
of its response) raises, the response has a non-200 status, or the call
yields a parsed payload. -/
inductive Call (α : Type) where
  | raise : Call α
  | errStatus : Call α
  | ok : α → Call α

/-- Environment of `fetch_ai_benchmarks` (main.py:192-252): the two
Papers-with-Code calls (payload: the parsed top-result metric, `none`
when `results` is empty/falsy), whether `HUGGINGFACE_TOKEN` is set, and
the Hugging Face call made only in that case. -/
structure AiEnv where
  arc : Call (Option ℚ)
  swe : Call (Option ℚ)
  hfToken : Bool
  hf : Call Unit

/-- Environment of `fetch_research_velocity` (main.py:254-292): the arXiv
call, payload = number of parsed `entry` elements. -/
structure ResearchEnv where
  arxiv : Call ℕ

/-- Environment of `fetch_github_activity` (main.py:294-335): whether
`GITHUB_TOKEN` is set (affects only headers) and the search call,
payload = (`total_count`, list of (stars, forks) of the items). -/
structure GithubEnv where
  token : Bool
  resp : Call (ℕ × List (ℚ × ℚ))

/-- Environment of `fetch_infrastructure_metrics` (main.py:337-370):
whether `EIA_API_KEY` is set and the EIA call made only in that case
(its response body is never inspected). -/
structure InfraEnv where
  eiaKey : Bool
  eia : Call Unit

/-- Parsed BLS JSON as far as the code inspects it (main.py:389-408):
whether `status == REQUEST_SUCCEEDED`, and `series[0].data` values
(`none` when `series` is empty or has no truthy `data`). -/
structure BlsPayload where
  statusSucceeded : Bool
  points : Option (List ℚ)

/-- Environment of `fetch_economic_signals` (main.py:372-433): the BLS
POST and the layoffs.fyi GET (inner `try`, body never parsed). -/
structure EconEnv where
  bls : Call BlsPayload
  layoffs : Call Unit

/-- Environment of `fetch_institutional_signals` (main.py:435-469):
whether `NEWS_API_KEY` is set, the News API call made only in that case,
and the congress.gov call (responses never inspected for status). -/
structure InstEnv where
  newsKey : Bool
  news : Call Unit
  congress : Call Unit

/-- Combined environment of one full fetch cycle. -/
structure Env where
  ai : AiEnv
  infra : InfraEnv
  econ : EconEnv
  inst : InstEnv
  research : ResearchEnv
  github : GithubEnv

/-- The dict built by `fetch_ai_benchmarks`: keys set in program order. -/
def aiDict (arc swe gpqa fm : ℚ) : Dict :=
  dset (dset (dset (dset dempty "arc_agi" arc) "swe_bench" swe)
    "gpqa_diamond" gpqa) "frontier_math" fm

/-- One Papers-with-Code lookup (main.py:199-225): exception propagates
to the handler; non-200 or empty `results` yields the inline default;
otherwise the parsed top metric. -/
def pwcValue : Call (Option ℚ) → ℚ → Option ℚ
  | Call.raise, _ => none
  | Call.errStatus, d => some d
  | Call.ok none, d => some d
  | Call.ok (some v), _ => some v

/-- The `try` body of `fetch_ai_benchmarks`: arc-agi, swe-bench, then
gpqa (72.0 on every non-raising path), `frontier_math` fixed at 8.5. -/
def aiBody (e : AiEnv) : Option (ℚ × ℚ × ℚ) := do
  let arc ← pwcValue e.arc 85
  let swe ← pwcValue e.swe 48
  let gpqa ← if e.hfToken then
      match e.hf with
      | Call.raise => none
      | _ => some (72 : ℚ)
    else some (72 : ℚ)
  pure (arc, swe, gpqa)

/-- `fetch_ai_benchmarks` (main.py:192-252). The `except` handler sets
all four fields to 85.0 / 48.0 / 72.0 / 8.5. -/
def fetch_ai_benchmarks (e : AiEnv) : Dict :=
  match aiBody e with
  | some (arc, swe, gpqa) => aiDict arc swe gpqa (17 / 2)
  | none => aiDict 85 48 72 (17 / 2)

/-- The dict built by `fetch_research_velocity`. -/
def researchDict (papers total : ℚ) : Dict :=
  dset (dset dempty "papers_per_day" papers) "total_papers_30d" total

/-- `fetch_research_velocity` (main.py:254-292): on a 200 response with
`n` parsed entries, `papers_per_day = n / 30`; otherwise (non-200 or any
exception, including XML parse failure) 50.0 and 1500. -/
def fetch_research_velocity (e : ResearchEnv) : Dict :=
  match e.arxiv with
  | Call.ok n => researchDict ((n : ℚ) / 30) (n : ℚ)
  | Call.errStatus => researchDict 50 1500
  | Call.raise => researchDict 50 1500

/-- The dict built by `fetch_github_activity`. -/
def githubDict (total avgStars avgForks : ℚ) : Dict :=
  dset (dset (dset dempty "total_ai_repos" total)
    "avg_stars_top10" avgStars) "avg_forks_top10" avgForks

/-- `fetch_github_activity` (main.py:294-335): on a 200 response, the
top-10 items' average stars/forks with `max(len(items), 1)` denominator;
otherwise 50000 / 25000 / 5000. -/
def fetch_github_activity (e : GithubEnv) : Dict :=
  match e.resp with
  | Call.ok (t, items) =>
      let top := items.take 10
      githubDict (t : ℚ)
        ((top.map Prod.fst).sum / ((max top.length 1 : ℕ) : ℚ))
        ((top.map Prod.snd).sum / ((max top.length 1 : ℕ) : ℚ))
  | Call.errStatus => githubDict 50000 25000 5000
  | Call.raise => githubDict 50000 25000 5000

/-- The dict built by `fetch_infrastructure_metrics`: keys in program
order `datacenter_power_pct`, `logical_qubits`, `gpu_production_index`. -/
def infraDict (power qubits gpu : ℚ) : Dict :=
  dset (dset (dset dempty "datacenter_power_pct" power)
    "logical_qubits" qubits) "gpu_production_index" gpu

/-- `fetch_infrastructure_metrics` (main.py:337-370): with an EIA key the
call is made (2.2 regardless of its response unless it raises), without
one 2.1; qubits 12 and gpu 78.0 in the body, handler defaults
2.1 / 12 / 75.0. -/
def fetch_infrastructure_metrics (e : InfraEnv) : Dict :=
  if e.eiaKey then
    match e.eia with
    | Call.raise => infraDict (21 / 10) 12 75
    | _ => infraDict (11 / 5) 12 78
  else infraDict (21 / 10) 12 78

/-- The dict built by `fetch_economic_signals`: keys in program order. -/
def econDict (junior layoffs rev : ℚ) : Dict :=
  dset (dset (dset dempty "junior_role_hiring_change" junior)
    "tech_layoffs_index" layoffs) "ai_revenue_per_employee" rev

/-- The `try` body of `fetch_economic_signals` up to the fields that can
vary: the BLS month-over-month change (a zero previous value raises
`ZeroDivisionError` into the handler) and the layoffs index (inner
`try` with a bare `except`, so its failures never reach the handler). -/
def econBody (e : EconEnv) : Option (ℚ × ℚ) := do
  let junior ← match e.bls with
    | Call.raise => none
    | Call.errStatus => some (-35 : ℚ)
    | Call.ok p =>
        if p.statusSucceeded then
          match p.points with
          | some (recent :: previous :: _) =>
              if previous = 0 then none
              else some ((recent - previous) / previous * 100)
          | some _ => some (-35 : ℚ)
          | none => some (-35 : ℚ)
        else some (-35 : ℚ)
  let layoffs : ℚ := match e.layoffs with
    | Call.ok _ => 87
    | _ => 85
  pure (junior, layoffs)

/-- `fetch_economic_signals` (main.py:372-433): revenue 168.0 in the
body; handler defaults 85.0 / -35.0 / 165.0. -/
def fetch_economic_signals (e : EconEnv) : Dict :=
  match econBody e with
  | some (junior, layoffs) => econDict junior layoffs 168
  | none => econDict (-35) 85 165

/-- The dict built by `fetch_institutional_signals`. -/
def instDict (dep leg vc : ℚ) : Dict :=
  dset (dset (dset dempty "executive_departures" dep)
    "emergency_legislation" leg) "vc_funding_index" vc

/-- The `try` body of `fetch_institutional_signals`: departures 8 when a
News API key is present (and the call does not raise), else 7; then the
congress.gov call, whose raising reaches the handler. -/
def instBody (e : InstEnv) : Option ℚ := do
  let dep ← if e.newsKey then
      match e.news with
      | Call.raise => none
      | _ => some (8 : ℚ)
    else some (7 : ℚ)
  match e.congress with
  | Call.raise => none
  | _ => pure dep

/-- `fetch_institutional_signals` (main.py:435-469): legislation 2 and
vc 148.0 in the body; handler defaults 7 / 2 / 145.0. -/
def fetch_institutional_signals (e : InstEnv) : Dict :=
  match instBody e with
  | some dep => instDict dep 2 148
  | none => instDict 7 2 145

/-- Research-velocity bonus (main.py:489): `min(papers/100 * 10, 10)`. -/
def researchFactor (papers : ℚ) : ℚ := min (papers / 100 * 10) 10

/-- GitHub-activity bonus (main.py:514): `min(repos/100000 * 10, 10)`. -/
def githubFactor (repos : ℚ) : ℚ := min (repos / 100000 * 10) 10

/-- AI capability sub-score (main.py:485-490): benchmark blend plus the
research-velocity bonus, the sum capped at 100. -/
def computeAiScore (arc swe gpqa fm papers : ℚ) : ℚ :=
  min ((arc + swe + gpqa + fm * 2) / 5 + researchFactor papers) 100

/-- Infrastructure sub-score (main.py:493-497). -/
def computeInfraScore (qubits power gpu : ℚ) : ℚ :=
  (min (qubits / 100 * 100) 100 + min (power / 5 * 100) 100 + gpu) / 3

/-- Economic sub-score (main.py:500-504). -/
def computeEconScore (junior rev layoffs : ℚ) : ℚ :=
  (|junior| + min (rev / 200 * 100) 100 + layoffs) / 3

/-- Institutional sub-score (main.py:507-515): average of three capped
terms plus the GitHub-activity bonus, the sum capped at 100. -/
def computeInstScore (dep leg vc repos : ℚ) : ℚ :=
  min ((min (dep * 10) 100 + min (leg * 25) 100 + min (vc / 200 * 100) 100) / 3
    + githubFactor repos) 100

/-- Composite index (main.py:517-518). -/
def computeIndex (ai infra econ inst : ℚ) : ℚ :=
  ai * (35 / 100) + infra * (20 / 100) + econ * (25 / 100) + inst * (20 / 100)

/-- The constant `data_sources` JSON stored with every snapshot
(main.py:540-547). -/
def sourcesConst : List (String × String) :=
  [("ai_benchmarks", "papers_with_code"), ("research_velocity", "arxiv"),
   ("github_activity", "github_api"), ("infrastructure", "eia"),
   ("economic", "bls"), ("institutional", "news_api")]

/-- The `MetricsSnapshot` record (main.py:68-102, populated at
main.py:521-548). `logical_qubits` is stored through `int(...)`. -/
structure MetricsSnapshot where
  arc_agi_score : ℚ
  swe_bench_score : ℚ
  gpqa_diamond_score : ℚ
  frontier_math_score : ℚ
  logical_qubits : ℤ
  datacenter_power_pct : ℚ
  gpu_production_index : ℚ
  junior_role_hiring_change : ℚ
  ai_revenue_per_employee : ℚ
  tech_layoffs_index : ℚ
  executive_departures : ℚ
  emergency_legislation : ℚ
  vc_funding_index : ℚ
  ai_score : ℚ
  infrastructure_score : ℚ
  economic_score : ℚ
  institutional_score : ℚ
  singularity_index : ℚ
  data_sources : List (String × String)
deriving DecidableEq

/-- The snapshot built by `fetch_all_metrics` (main.py:484-548) from the
fifteen raw values its scoring block reads. -/
def buildSnapshot (arc swe gpqa fm papers qubits power gpu junior rev layoffs
    dep leg vc repos : ℚ) : MetricsSnapshot :=
  let ai_score := computeAiScore arc swe gpqa fm papers
  let infra_score := computeInfraScore qubits power gpu
  let econ_score := computeEconScore junior rev layoffs
  let inst_score := computeInstScore dep leg vc repos
  { arc_agi_score := arc
    swe_bench_score := swe
    gpqa_diamond_score := gpqa
    frontier_math_score := fm
    logical_qubits := ⌊qubits⌋
    datacenter_power_pct := power
    gpu_production_index := gpu
    junior_role_hiring_change := junior
    ai_revenue_per_employee := rev
    tech_layoffs_index := layoffs
    executive_departures := dep
    emergency_legislation := leg
    vc_funding_index := vc
    ai_score := ai_score
    infrastructure_score := infra_score
    economic_score := econ_score
    institutional_score := inst_score
    singularity_index := computeIndex ai_score infra_score econ_score inst_score
    data_sources := sourcesConst }

/-- The scoring block of `fetch_all_metrics` (main.py:484-548) as a
function of the six adapter dicts. Every raw value is read by key
lookup (`ai_data['arc_agi']` etc.); a missing key is a `KeyError`,
modelled by `none` propagation. -/
def calcSnapshot (ai_data infra_data econ_data inst_data research_data
    github_data : Dict) : Option MetricsSnapshot := do
  let arc ← ai_data "arc_agi"
  let swe ← ai_data "swe_bench"
  let gpqa ← ai_data "gpqa_diamond"
  let fm ← ai_data "frontier_math"
  let papers ← research_data "papers_per_day"
  let qubits ← infra_data "logical_qubits"
  let power ← infra_data "datacenter_power_pct"
  let gpu ← infra_data "gpu_production_index"
  let junior ← econ_data "junior_role_hiring_change"
  let rev ← econ_data "ai_revenue_per_employee"
  let layoffs ← econ_data "tech_layoffs_index"
  let dep ← inst_data "executive_departures"
  let leg ← inst_data "emergency_legislation"
  let vc ← inst_data "vc_funding_index"
  let repos ← github_data "total_ai_repos"
  pure (buildSnapshot arc swe gpqa fm papers qubits power gpu junior rev
    layoffs dep leg vc repos)

/-- `fetch_all_metrics` (main.py:471-550): gather all six adapters, then
score. `asyncio.gather` over the pure adapter models is application. -/
def fetch_all_metrics (e : Env) : Option MetricsSnapshot :=
  calcSnapshot (fetch_ai_benchmarks e.ai) (fetch_infrastructure_metrics e.infra)
    (fetch_economic_signals e.econ) (fetch_institutional_signals e.inst)
    (fetch_research_velocity e.research) (fetch_github_activity e.github)

/-- The phase bands of `get_current_metrics` (main.py:613-624). -/
def phaseOf (index : ℚ) : String :=
  if index < 20 then "Pre-Acceleration"
  else if index < 40 then "Early Acceleration"
  else if index < 60 then "Rapid Capability Gain"
  else if index < 80 then "Pre-AGI Threshold"
  else "Singularity Zone"

/-- The staleness test of `get_current_metrics` (main.py:605):
`not latest or (utcnow - latest.timestamp).total_seconds() > 86400`. -/
def stale (latest : Option (ℚ × MetricsSnapshot)) (now : ℚ) : Bool :=
  match latest with
  | none => true
  | some (ts, _) => decide (now - ts > 86400)

/-- The fields of `MetricsResponse` (main.py:135-144) that the claims
inspect (the echoed raw-metric sub-dicts are omitted). -/
structure MetricsResponse where
  singularity_index : ℚ
  phase : String
  ai_score : ℚ
  infrastructure_score : ℚ
  economic_score : ℚ
  institutional_score : ℚ
  data_sources : List (String × String)
deriving DecidableEq

/-- The response built at main.py:626-658. -/
def responseOf (s : MetricsSnapshot) : MetricsResponse :=
  { singularity_index := s.singularity_index
    phase := phaseOf s.singularity_index
    ai_score := s.ai_score
    infrastructure_score := s.infrastructure_score
    economic_score := s.economic_score
    institutional_score := s.institutional_score
    data_sources := s.data_sources }

/-- `get_current_metrics` (main.py:592-658). `latest` is the newest
stored snapshot with its timestamp; the returned `Bool` records whether
a fresh snapshot was fetched and committed, and the final list the
background alert tasks scheduled by this endpoint — it takes no
`BackgroundTasks` and schedules none. -/
def get_current_metrics (e : Env) (now : ℚ)
    (latest : Option (ℚ × MetricsSnapshot)) :
    Option (MetricsResponse × Bool × List ℚ) :=
  match (if stale latest now
      then (fetch_all_metrics e).map (fun s => (s, true))
      else latest.map (fun p => (p.2, false))) with
  | some (s, refreshed) => some (responseOf s, refreshed, [])
  | none => none

/-- `manual_update_metrics` (main.py:747-763): fetch and store a new
snapshot; schedule one `send_alert_emails(index)` background task iff
`singularity_index >= 60`. Alerts are modelled by their payload (the
index value handed to delivery). -/
def manual_update_metrics (e : Env) : Option (MetricsSnapshot × List ℚ) :=
  (fetch_all_metrics e).map (fun s =>
    (s, if 60 ≤ s.singularity_index then [s.singularity_index] else []))

/-- A sequence of `manual_update_metrics` invocations: the snapshots
committed and the alert tasks scheduled, in order. -/
def manualUpdateTrace : List Env → List MetricsSnapshot × List ℚ
  | [] => ([], [])
  | e :: rest =>
      let r := manualUpdateTrace rest
      match manual_update_metrics e with
      | some (s, al) => (s :: r.1, al ++ r.2)
      | none => r

/-- Program counter of one concurrent `get_current_metrics` request
coroutine: before its staleness check, awaiting `fetch_all_metrics`, or
finished. -/
inductive CallerPc where
  | ready : CallerPc
  | fetching : CallerPc
  | done : CallerPc
deriving DecidableEq

/-- Shared state of the server under `n` concurrent requests: the stored
snapshots (newest first), the number of times the fetch coordinator
`fetch_all_metrics` has been invoked, and each coroutine's position. -/
structure SysState (n : ℕ) where
  db : List (ℚ × MetricsSnapshot)
  fetchCalls : ℕ
  pcs : Fin n → CallerPc

/-- `db.query(...).order_by(desc).first()`: the newest stored snapshot. -/
def latestOf (db : List (ℚ × MetricsSnapshot)) : Option (ℚ × MetricsSnapshot) :=
  db.head?

/-- One atomic scheduler step of request coroutine `i`, with suspension
exactly at the `await fetch_all_metrics()` of main.py:606: a `ready`
coroutine runs the staleness check of main.py:605 and, if stale, starts
the coordinator; a `fetching` coroutine resumes after its fetch and
commits (main.py:607-609). There is no lock or in-flight flag in the
handler, so the check inspects only the stored snapshots. -/
def step (e : Env) (now : ℚ) {n : ℕ} (s : SysState n) (i : Fin n) : SysState n :=
  match s.pcs i with
  | CallerPc.ready =>
      if stale (latestOf s.db) now = true then
        { s with fetchCalls := s.fetchCalls + 1,
                 pcs := Function.update s.pcs i CallerPc.fetching }
      else
        { s with pcs := Function.update s.pcs i CallerPc.done }
  | CallerPc.fetching =>
      match fetch_all_metrics e with
      | some snap => { s with db := (now, snap) :: s.db,
                              pcs := Function.update s.pcs i CallerPc.done }
      | none => { s with pcs := Function.update s.pcs i CallerPc.done }
  | CallerPc.done => s

/-- Run a schedule (a list of coroutine ids) from a state. -/
def run (e : Env) (now : ℚ) {n : ℕ} (s : SysState n) :
    List (Fin n) → SysState n
  | [] => s
  | i :: rest => run e now (step e now s i) rest

/-- `n` fresh concurrent requests against an empty snapshot store. -/
def initState (n : ℕ) : SysState n :=
  { db := [], fetchCalls := 0, pcs := fun _ => CallerPc.ready }

/-- A cycle in which every adapter's outbound call raises (network error
or timeout at every source): every adapter takes its `except` path. -/
def allFallbackEnv : Env :=
  { ai := { arc := Call.raise, swe := Call.raise, hfToken := true, hf := Call.raise }
    infra := { eiaKey := true, eia := Call.raise }
    econ := { bls := Call.raise, layoffs := Call.raise }
    inst := { newsKey := true, news := Call.raise, congress := Call.raise }
    research := { arxiv := Call.raise }
    github := { token := true, resp := Call.raise } }

/-- All sources fall back except BLS, which reports employment going
from 1 to 8 (a +700 percent month-over-month change). -/
def envOver : Env :=
  { allFallbackEnv with
    econ := { bls := Call.ok { statusSucceeded := true, points := some [8, 1] },
              layoffs := Call.raise } }

/-- All sources fall back except Papers-with-Code, which reports an
arc-agi accuracy of -10000. -/
def envNeg : Env :=
  { allFallbackEnv with
    ai := { arc := Call.ok (some (-10000)), swe := Call.errStatus,
            hfToken := false, hf := Call.errStatus } }

/-- All sources fall back except Papers-with-Code, which reports an
arc-agi accuracy of 200; the resulting composite index is 38789/600,
about 64.6, above the alert threshold of 60. -/
def envHigh : Env :=
  { allFallbackEnv with
    ai := { arc := Call.ok (some 200), swe := Call.errStatus,
            hfToken := false, hf := Call.errStatus } }

/-- The snapshot produced by an all-fallback cycle. -/
def snapFB : MetricsSnapshot :=
  buildSnapshot 85 48 72 (17 / 2) 50 12 (21 / 10) 75 (-35) 165 85 7 2 145 50000

/-- The snapshot produced by the `envHigh` cycle. -/
def snapHigh : MetricsSnapshot :=
  buildSnapshot 200 48 72 (17 / 2) 50 12 (21 / 10) 75 (-35) 165 85 7 2 145 50000

/-- The snapshot produced by the `envOver` cycle (junior-role change
computed from the BLS points 8 and 1). -/
def snapOver : MetricsSnapshot :=
  buildSnapshot 85 48 72 (17 / 2) 50 12 (21 / 10) 75 ((8 - 1) / 1 * 100) 168 85
    7 2 145 50000

/-- The snapshot produced by the `envNeg` cycle. -/
def snapNeg : MetricsSnapshot :=
  buildSnapshot (-10000) 48 72 (17 / 2) 50 12 (21 / 10) 75 (-35) 165 85 7 2 145
    50000

@[simp] theorem aiDict_arc (a b c d : ℚ) : aiDict a b c d "arc_agi" = some a := rfl

@[simp] theorem aiDict_swe (a b c d : ℚ) : aiDict a b c d "swe_bench" = some b := rfl

@[simp] theorem aiDict_gpqa (a b c d : ℚ) : aiDict a b c d "gpqa_diamond" = some c := rfl

@[simp] theorem aiDict_fm (a b c d : ℚ) : aiDict a b c d "frontier_math" = some d := rfl

@[simp] theorem researchDict_papers (a b : ℚ) : researchDict a b "papers_per_day" = some a := rfl

@[simp] theorem infraDict_qubits (a b c : ℚ) : infraDict a b c "logical_qubits" = some b := rfl

@[simp] theorem infraDict_power (a b c : ℚ) : infraDict a b c "datacenter_power_pct" = some a := rfl

@[simp] theorem infraDict_gpu (a b c : ℚ) : infraDict a b c "gpu_production_index" = some c := rfl

@[simp] theorem econDict_junior (a b c : ℚ) : econDict a b c "junior_role_hiring_change" = some a := rfl

@[simp] theorem econDict_rev (a b c : ℚ) : econDict a b c "ai_revenue_per_employee" = some c := rfl

@[simp] theorem econDict_layoffs (a b c : ℚ) : econDict a b c "tech_layoffs_index" = some b := rfl

@[simp] theorem instDict_dep (a b c : ℚ) : instDict a b c "executive_departures" = some a := rfl

@[simp] theorem instDict_leg (a b c : ℚ) : instDict a b c "emergency_legislation" = some b := rfl

@[simp] theorem instDict_vc (a b c : ℚ) : instDict a b c "vc_funding_index" = some c := rfl

@[simp] theorem githubDict_repos (a b c : ℚ) : githubDict a b c "total_ai_repos" = some a := rfl

/-- Every code path of `fetch_ai_benchmarks` yields the four owned keys. -/
theorem ai_shape (e : AiEnv) : ∃ a b c d, fetch_ai_benchmarks e = aiDict a b c d := by
  cases h : aiBody e with
  | none => exact ⟨85, 48, 72, 17 / 2, by simp [fetch_ai_benchmarks, h]⟩
  | some v =>
      obtain ⟨a, b, c⟩ := v
      exact ⟨a, b, c, 17 / 2, by simp [fetch_ai_benchmarks, h]⟩

/-- Every code path of `fetch_research_velocity` yields its two keys. -/
theorem research_shape (e : ResearchEnv) :
    ∃ a b, fetch_research_velocity e = researchDict a b := by
  rcases e with ⟨arxiv⟩
  cases arxiv <;> exact ⟨_, _, rfl⟩

/-- Every code path of `fetch_infrastructure_metrics` yields its keys. -/
theorem infra_shape (e : InfraEnv) :
    ∃ a b c, fetch_infrastructure_metrics e = infraDict a b c := by
  rcases e with ⟨key, eia⟩
  cases key <;> cases eia <;> exact ⟨_, _, _, rfl⟩

/-- Every code path of `fetch_economic_signals` yields its three keys. -/
theorem econ_shape (e : EconEnv) :
    ∃ a b c, fetch_economic_signals e = econDict a b c := by
  cases h : econBody e with
  | none => exact ⟨-35, 85, 165, by simp [fetch_economic_signals, h]⟩
  | some v =>
      obtain ⟨a, b⟩ := v
      exact ⟨a, b, 168, by simp [fetch_economic_signals, h]⟩

/-- Every code path of `fetch_institutional_signals` yields its keys. -/
theorem inst_shape (e : InstEnv) :
    ∃ a b c, fetch_institutional_signals e = instDict a b c := by
  cases h : instBody e with
  | none => exact ⟨7, 2, 145, by simp [fetch_institutional_signals, h]⟩
  | some v => exact ⟨v, 2, 148, by simp [fetch_institutional_signals, h]⟩

/-- Every code path of `fetch_github_activity` yields its three keys. -/
theorem github_shape (e : GithubEnv) :
    ∃ a b c, fetch_github_activity e = githubDict a b c := by
  rcases e with ⟨tok, resp⟩
  rcases resp with - | - | ⟨t, items⟩ <;> exact ⟨_, _, _, rfl⟩

/-- Every fetch cycle succeeds and produces a snapshot of the canonical
shape: the adapters populate every field the scoring block reads. -/
theorem fetch_all_metrics_shape (e : Env) :
    ∃ arc swe gpqa fm papers qubits power gpu junior rev layoffs dep leg vc repos,
      fetch_all_metrics e = some (buildSnapshot arc swe gpqa fm papers qubits
        power gpu junior rev layoffs dep leg vc repos) := by
  obtain ⟨a1, a2, a3, a4, hai⟩ := ai_shape e.ai
  obtain ⟨r1, r2, hres⟩ := research_shape e.research
  obtain ⟨i1, i2, i3, hinf⟩ := infra_shape e.infra
  obtain ⟨e1, e2, e3, hec⟩ := econ_shape e.econ
  obtain ⟨n1, n2, n3, hin⟩ := inst_shape e.inst
  obtain ⟨g1, g2, g3, hgh⟩ := github_shape e.github
  refine ⟨a1, a2, a3, a4, r1, i2, i1, i3, e1, e3, e2, n1, n2, n3, g1, ?_⟩
  simp [fetch_all_metrics, calcSnapshot, hai, hres, hinf, hec, hin, hgh]

theorem fetch_allFallback_eq : fetch_all_metrics allFallbackEnv = some snapFB := by
  simp [fetch_all_metrics, calcSnapshot, fetch_ai_benchmarks, aiBody, pwcValue,
    fetch_research_velocity, fetch_infrastructure_metrics, fetch_economic_signals,
    econBody, fetch_institutional_signals, instBody, fetch_github_activity,
    allFallbackEnv, snapFB]

theorem fetch_envOver_eq : fetch_all_metrics envOver = some snapOver := by
  simp [fetch_all_metrics, calcSnapshot, fetch_ai_benchmarks, aiBody, pwcValue,
    fetch_research_velocity, fetch_infrastructure_metrics, fetch_economic_signals,
    econBody, fetch_institutional_signals, instBody, fetch_github_activity,
    envOver, allFallbackEnv, snapOver]

theorem fetch_envNeg_eq : fetch_all_metrics envNeg = some snapNeg := by
  simp [fetch_all_metrics, calcSnapshot, fetch_ai_benchmarks, aiBody, pwcValue,
    fetch_research_velocity, fetch_infrastructure_metrics, fetch_economic_signals,
    econBody, fetch_institutional_signals, instBody, fetch_github_activity,
    envNeg, allFallbackEnv, snapNeg]

theorem fetch_envHigh_eq : fetch_all_metrics envHigh = some snapHigh := by
  simp [fetch_all_metrics, calcSnapshot, fetch_ai_benchmarks, aiBody, pwcValue,
    fetch_research_velocity, fetch_infrastructure_metrics, fetch_economic_signals,
    econBody, fetch_institutional_signals, instBody, fetch_github_activity,
    envHigh, allFallbackEnv, snapHigh]

theorem snapFB_index : snapFB.singularity_index = 33959 / 600 := by
  norm_num [snapFB, buildSnapshot, computeIndex, computeAiScore, computeInfraScore,
    computeEconScore, computeInstScore, researchFactor, githubFactor, min_def, abs]

theorem snapHigh_index : snapHigh.singularity_index = 38789 / 600 := by
  norm_num [snapHigh, buildSnapshot, computeIndex, computeAiScore, computeInfraScore,
    computeEconScore, computeInstScore, researchFactor, githubFactor, min_def, abs]

theorem snapOver_index_gt : 100 < snapOver.singularity_index := by
  norm_num [snapOver, buildSnapshot, computeIndex, computeAiScore, computeInfraScore,
    computeEconScore, computeInstScore, researchFactor, githubFactor, min_def, abs]

theorem snapNeg_index_lt : snapNeg.singularity_index < 0 := by
  norm_num [snapNeg, buildSnapshot, computeIndex, computeAiScore, computeInfraScore,
    computeEconScore, computeInstScore, researchFactor, githubFactor, min_def, abs]

/-- C1 counterexample: the composite index is not always in [0,100].
With BLS reporting employment moving from 1 to 8 (all other sources on
fallback) the unclamped `abs(junior_role_hiring_change)` term pushes the
index to 5607/50 = 112.14; with Papers-with-Code reporting an arc-agi
value of -10000 the index is negative. -/
theorem C1_counterexample :
    fetch_all_metrics envOver = some snapOver ∧ 100 < snapOver.singularity_index ∧
    fetch_all_metrics envNeg = some snapNeg ∧ snapNeg.singularity_index < 0 :=
  ⟨fetch_envOver_eq, snapOver_index_gt, fetch_envNeg_eq, snapNeg_index_lt⟩

/-- C1 (amended): the gpu-production, layoffs and hiring-change fields
feed their averages unclamped, and the ai/institutional clamp is applied
after adding the bonus to the average, not per field; the composite index
is guaranteed in [0,100] only when those raw fields themselves lie in
nominal range (gpu and layoffs indices in [0,100], |hiring change| at
most 100) and all other raw inputs are nonnegative. -/
theorem C1_index_in_range_for_nominal_inputs
    (arc swe gpqa fm papers qubits power gpu junior rev layoffs dep leg vc
      repos : ℚ)
    (harc : 0 ≤ arc) (hswe : 0 ≤ swe) (hgpqa : 0 ≤ gpqa) (hfm : 0 ≤ fm)
    (hpapers : 0 ≤ papers) (hqubits : 0 ≤ qubits) (hpower : 0 ≤ power)
    (hgpu0 : 0 ≤ gpu) (hgpu1 : gpu ≤ 100) (hjunior : |junior| ≤ 100)
    (hrev : 0 ≤ rev) (hlay0 : 0 ≤ layoffs) (hlay1 : layoffs ≤ 100)
    (hdep : 0 ≤ dep) (hleg : 0 ≤ leg) (hvc : 0 ≤ vc) (hrepos : 0 ≤ repos) :
    0 ≤ (buildSnapshot arc swe gpqa fm papers qubits power gpu junior rev
        layoffs dep leg vc repos).singularity_index ∧
      (buildSnapshot arc swe gpqa fm papers qubits power gpu junior rev
        layoffs dep leg vc repos).singularity_index ≤ 100 := by
  have hA1 : computeAiScore arc swe gpqa fm papers ≤ 100 := min_le_right _ _
  have hA0 : 0 ≤ computeAiScore arc swe gpqa fm papers := by
    have hbase : 0 ≤ (arc + swe + gpqa + fm * 2) / 5 := by positivity
    have hrf : 0 ≤ researchFactor papers :=
      le_min (by positivity) (by norm_num)
    exact le_min (by linarith) (by norm_num)
  have ht1a : 0 ≤ min (qubits / 100 * 100) 100 := le_min (by positivity) (by norm_num)
  have ht1b : min (qubits / 100 * 100) 100 ≤ 100 := min_le_right _ _
  have ht2a : 0 ≤ min (power / 5 * 100) 100 := le_min (by positivity) (by norm_num)
  have ht2b : min (power / 5 * 100) 100 ≤ 100 := min_le_right _ _
  have hB0 : 0 ≤ computeInfraScore qubits power gpu := by
    unfold computeInfraScore; linarith
  have hB1 : computeInfraScore qubits power gpu ≤ 100 := by
    unfold computeInfraScore; linarith
  have ht3a : 0 ≤ min (rev / 200 * 100) 100 := le_min (by positivity) (by norm_num)
  have ht3b : min (rev / 200 * 100) 100 ≤ 100 := min_le_right _ _
  have habs : 0 ≤ |junior| := abs_nonneg junior
  have hC0 : 0 ≤ computeEconScore junior rev layoffs := by
    unfold computeEconScore; linarith
  have hC1 : computeEconScore junior rev layoffs ≤ 100 := by
    unfold computeEconScore; linarith
  have hu1a : 0 ≤ min (dep * 10) 100 := le_min (by positivity) (by norm_num)
  have hu2a : 0 ≤ min (leg * 25) 100 := le_min (by positivity) (by norm_num)
  have hu3a : 0 ≤ min (vc / 200 * 100) 100 := le_min (by positivity) (by norm_num)
  have hgf : 0 ≤ min (repos / 100000 * 10) 10 :=
    le_min (by positivity) (by norm_num)
  have hD1 : computeInstScore dep leg vc repos ≤ 100 := min_le_right _ _
  have hD0 : 0 ≤ computeInstScore dep leg vc repos := by
    unfold computeInstScore githubFactor
    exact le_min (by linarith) (by norm_num)
  constructor
  · show 0 ≤ computeIndex (computeAiScore arc swe gpqa fm papers) _ _ _
    unfold computeIndex; linarith
  · show computeIndex (computeAiScore arc swe gpqa fm papers) _ _ _ ≤ 100
    unfold computeIndex; linarith

/-- C1 witness: nominal mid-scale inputs give an index inside [0,100]. -/
theorem C1_witness :
    0 ≤ (buildSnapshot 50 50 50 50 50 50 50 50 50 50 50 50 50 50
        50).singularity_index ∧
      (buildSnapshot 50 50 50 50 50 50 50 50 50 50 50 50 50 50
        50).singularity_index ≤ 100 :=
  C1_index_in_range_for_nominal_inputs 50 50 50 50 50 50 50 50 50 50 50 50 50
    50 50 (by norm_num) (by norm_num) (by norm_num) (by norm_num) (by norm_num)
    (by norm_num) (by norm_num) (by norm_num) (by norm_num) (by norm_num)
    (by norm_num) (by norm_num) (by norm_num) (by norm_num) (by norm_num)
    (by norm_num) (by norm_num)

/-- C2 counterexample: the all-fallback composite index is 33959/600,
about 56.6 — not approximately 72.4 (it differs by more than 15 points). -/
theorem C2_counterexample :
    (fetch_all_metrics allFallbackEnv).map MetricsSnapshot.singularity_index
        = some (33959 / 600) ∧
      ¬((33959 / 600 : ℚ) = 724 / 10) ∧ 15 < |(33959 / 600 : ℚ) - 724 / 10| := by
  refine ⟨?_, by norm_num, ?_⟩
  · rw [fetch_allFallback_eq, Option.map_some', snapFB_index]
  · rw [abs_of_nonpos (by norm_num)]; norm_num

/-- C2 (amended): when every adapter's call raises, the sub-scores are
ai 247/5 = 49.4, infrastructure 43, economic 135/2 = 67.5, institutional
415/6 = 69.16…, the composite index is 33959/600 = 56.598…, and the
phase band is "Rapid Capability Gain". -/
theorem C2_all_fallback_values :
    fetch_all_metrics allFallbackEnv = some snapFB ∧
    snapFB.ai_score = 247 / 5 ∧ snapFB.infrastructure_score = 43 ∧
    snapFB.economic_score = 135 / 2 ∧ snapFB.institutional_score = 415 / 6 ∧
    snapFB.singularity_index = 33959 / 600 ∧
    phaseOf snapFB.singularity_index = "Rapid Capability Gain" := by
  refine ⟨fetch_allFallback_eq, ?_, ?_, ?_, ?_, snapFB_index, ?_⟩
  · norm_num [snapFB, buildSnapshot, computeAiScore, researchFactor, min_def]
  · norm_num [snapFB, buildSnapshot, computeInfraScore, min_def]
  · norm_num [snapFB, buildSnapshot, computeEconScore, min_def, abs]
  · norm_num [snapFB, buildSnapshot, computeInstScore, githubFactor, min_def]
  · rw [snapFB_index, phaseOf, if_neg (by norm_num), if_neg (by norm_num),
      if_pos (by norm_num)]

/-- C4: every snapshot the pipeline produces stores as its composite
index exactly the fixed convex combination 0.35/0.20/0.25/0.20 of its
stored sub-scores (the weights sum to 1); re-applying the combination to
the stored sub-scores reproduces the stored index exactly, hence within
any rounding tolerance. -/
theorem C4_index_is_weighted_combination (e : Env) (s : MetricsSnapshot)
    (h : fetch_all_metrics e = some s) :
    s.singularity_index = computeIndex s.ai_score s.infrastructure_score
        s.economic_score s.institutional_score ∧
      (35 / 100 : ℚ) + 20 / 100 + 25 / 100 + 20 / 100 = 1 := by
  obtain ⟨a1, a2, a3, a4, r1, q, p, g, j, rv, l, d, lg, v, rp, heq⟩ :=
    fetch_all_metrics_shape e
  rw [heq] at h
  injection h with h2
  subst h2
  exact ⟨rfl, by norm_num⟩

/-- C4 witness: the all-fallback snapshot's stored index is reproduced
by the weighted combination of its stored sub-scores. -/
theorem C4_witness :
    snapFB.singularity_index = computeIndex snapFB.ai_score
        snapFB.infrastructure_score snapFB.economic_score
        snapFB.institutional_score ∧
      (35 / 100 : ℚ) + 20 / 100 + 25 / 100 + 20 / 100 = 1 :=
  C4_index_is_weighted_combination allFallbackEnv snapFB fetch_allFallback_eq

/-- C6: the phase label is computed by ordered half-open interval tests:
[0,20) Pre-Acceleration, [20,40) Early Acceleration, [40,60) Rapid
Capability Gain, [60,80) Pre-AGI Threshold, and the terminal band
index ≥ 80 Singularity Zone. -/
theorem C6_phase_half_open_bands (i : ℚ) :
    (0 ≤ i → i < 20 → phaseOf i = "Pre-Acceleration") ∧
    (20 ≤ i → i < 40 → phaseOf i = "Early Acceleration") ∧
    (40 ≤ i → i < 60 → phaseOf i = "Rapid Capability Gain") ∧
    (60 ≤ i → i < 80 → phaseOf i = "Pre-AGI Threshold") ∧
    (80 ≤ i → phaseOf i = "Singularity Zone") := by
  refine ⟨fun h1 h2 => ?_, fun h1 h2 => ?_, fun h1 h2 => ?_, fun h1 h2 => ?_,
    fun h1 => ?_⟩
  · rw [phaseOf, if_pos h2]
  · rw [phaseOf, if_neg (by linarith), if_pos h2]
  · rw [phaseOf, if_neg (by linarith), if_neg (by linarith), if_pos h2]
  · rw [phaseOf, if_neg (by linarith), if_neg (by linarith),
      if_neg (by linarith), if_pos h2]
  · rw [phaseOf, if_neg (by linarith), if_neg (by linarith),
      if_neg (by linarith), if_neg (by linarith)]

/-- C6 witness: one representative index per band. -/
theorem C6_witness :
    phaseOf 10 = "Pre-Acceleration" ∧ phaseOf 30 = "Early Acceleration" ∧
    phaseOf 50 = "Rapid Capability Gain" ∧ phaseOf 70 = "Pre-AGI Threshold" ∧
    phaseOf 90 = "Singularity Zone" :=
  ⟨(C6_phase_half_open_bands 10).1 (by norm_num) (by norm_num),
   (C6_phase_half_open_bands 30).2.1 (by norm_num) (by norm_num),
   (C6_phase_half_open_bands 50).2.2.1 (by norm_num) (by norm_num),
   (C6_phase_half_open_bands 70).2.2.2.1 (by norm_num) (by norm_num),
   (C6_phase_half_open_bands 90).2.2.2.2 (by norm_num)⟩

/-- C10: the ai and institutional sub-scores are capped at 100, and the
research-velocity and GitHub-activity bonus terms are capped at 10,
unconditionally in the raw inputs. -/
theorem C10_sub_score_and_bonus_caps (arc swe gpqa fm papers dep leg vc
    repos : ℚ) :
    computeAiScore arc swe gpqa fm papers ≤ 100 ∧
    computeInstScore dep leg vc repos ≤ 100 ∧
    researchFactor papers ≤ 10 ∧ githubFactor repos ≤ 10 :=
  ⟨min_le_right _ _, min_le_right _ _, min_le_right _ _, min_le_right _ _⟩

/-- C3 counterexample: in an all-fallback cycle every adapter substitutes
its documented defaults, yet the combined result's `data_sources` map is
the constant source-name map — no category is marked `fallback`. -/
theorem C3_counterexample :
    fetch_all_metrics allFallbackEnv = some snapFB ∧
    snapFB.data_sources = sourcesConst ∧
    snapFB.data_sources.all (fun p => p.2 != "fallback") = true ∧
    fetch_ai_benchmarks allFallbackEnv.ai "arc_agi" = some 85 ∧
    fetch_economic_signals allFallbackEnv.econ "tech_layoffs_index" = some 85 := by
  exact ⟨fetch_allFallback_eq, rfl, by decide, rfl, rfl⟩

/-- C3 (amended): every adapter is total — every fetch cycle succeeds
with all owned fields populated, and on the all-raising environment each
field carries its documented default — but the combined result's
`data_sources` is the constant source-name map for every environment:
the pipeline records no live/fallback provenance at all. -/
theorem C3_adapters_total_defaults_but_no_provenance :
    (∀ e : Env, ∃ s, fetch_all_metrics e = some s ∧
      s.data_sources = sourcesConst) ∧
    (fetch_ai_benchmarks allFallbackEnv.ai "arc_agi" = some 85 ∧
     fetch_ai_benchmarks allFallbackEnv.ai "swe_bench" = some 48 ∧
     fetch_ai_benchmarks allFallbackEnv.ai "gpqa_diamond" = some 72 ∧
     fetch_ai_benchmarks allFallbackEnv.ai "frontier_math" = some (17 / 2) ∧
     fetch_research_velocity allFallbackEnv.research "papers_per_day" = some 50 ∧
     fetch_research_velocity allFallbackEnv.research "total_papers_30d" = some 1500 ∧
     fetch_infrastructure_metrics allFallbackEnv.infra "datacenter_power_pct" = some (21 / 10) ∧
     fetch_infrastructure_metrics allFallbackEnv.infra "logical_qubits" = some 12 ∧
     fetch_infrastructure_metrics allFallbackEnv.infra "gpu_production_index" = some 75 ∧
     fetch_economic_signals allFallbackEnv.econ "junior_role_hiring_change" = some (-35) ∧
     fetch_economic_signals allFallbackEnv.econ "tech_layoffs_index" = some 85 ∧
     fetch_economic_signals allFallbackEnv.econ "ai_revenue_per_employee" = some 165 ∧
     fetch_institutional_signals allFallbackEnv.inst "executive_departures" = some 7 ∧
     fetch_institutional_signals allFallbackEnv.inst "emergency_legislation" = some 2 ∧
     fetch_institutional_signals allFallbackEnv.inst "vc_funding_index" = some 145 ∧
     fetch_github_activity allFallbackEnv.github "total_ai_repos" = some 50000 ∧
     fetch_github_activity allFallbackEnv.github "avg_stars_top10" = some 25000 ∧
     fetch_github_activity allFallbackEnv.github "avg_forks_top10" = some 5000) := by
  constructor
  · intro e
    obtain ⟨a1, a2, a3, a4, r1, q, p, g, j, rv, l, d, lg, v, rp, heq⟩ :=
      fetch_all_metrics_shape e
    exact ⟨_, heq, rfl⟩
  · exact ⟨rfl, rfl, rfl, rfl, rfl, rfl, rfl, rfl, rfl, rfl, rfl, rfl, rfl,
      rfl, rfl, rfl, rfl, rfl⟩

/-- C5: the read endpoint recomputes exactly when no snapshot exists or
the latest snapshot's age strictly exceeds 86400 seconds, and otherwise
serves the stored snapshot; a snapshot aged exactly 86400 seconds is
treated as fresh (exclusive bound) and served without recomputation. -/
theorem C5_staleness_policy (e : Env) (now : ℚ)
    (latest : Option (ℚ × MetricsSnapshot)) :
    (stale latest now = true ↔
      latest = none ∨ ∃ ts s0, latest = some (ts, s0) ∧ 86400 < now - ts) ∧
    (stale latest now = true →
      get_current_metrics e now latest
        = (fetch_all_metrics e).map (fun s => (responseOf s, true, []))) ∧
    (∀ ts s0, latest = some (ts, s0) → ¬(86400 < now - ts) →
      get_current_metrics e now latest = some (responseOf s0, false, [])) ∧
    (∀ ts s0, latest = some (ts, s0) → now - ts = 86400 →
      get_current_metrics e now latest = some (responseOf s0, false, [])) := by
  have key : ∀ ts s0, latest = some (ts, s0) → ¬(86400 < now - ts) →
      get_current_metrics e now latest = some (responseOf s0, false, []) := by
    intro ts s0 hl hn
    subst hl
    simp [get_current_metrics, stale, hn]
  refine ⟨?_, ?_, key, fun ts s0 hl heq => key ts s0 hl (by rw [heq]; norm_num)⟩
  · cases latest with
    | none => simp [stale]
    | some p =>
        obtain ⟨ts, s0⟩ := p
        simp only [stale, decide_eq_true_eq, reduceCtorEq, false_or]
        constructor
        · intro h
          exact ⟨ts, s0, rfl, h⟩
        · rintro ⟨ts2, s2, hp, h⟩
          obtain ⟨rfl, rfl⟩ := Prod.mk.injEq .. ▸ Option.some.inj hp
          exact h
  · intro h
    cases hf : fetch_all_metrics e with
    | none => simp [get_current_metrics, h, hf]
    | some s => simp [get_current_metrics, h, hf]

/-- C5 witness: a snapshot aged exactly 86400 seconds is served as is. -/
theorem C5_witness :
    get_current_metrics allFallbackEnv 86400 (some (0, snapFB))
      = some (responseOf snapFB, false, []) :=
  (C5_staleness_policy allFallbackEnv 86400 (some (0, snapFB))).2.2.2 0 snapFB
    rfl (by norm_num)

/-- C7 counterexample: the scoring block fails on a missing field rather
than defaulting it to 0 — on all-empty input dicts the calculation is a
`KeyError` (`none`), while the treated-as-0 reading would have produced
the all-zero snapshot. -/
theorem C7_counterexample :
    calcSnapshot dempty dempty dempty dempty dempty dempty = none ∧
    calcSnapshot (aiDict 0 0 0 0) (infraDict 0 0 0) (econDict 0 0 0)
        (instDict 0 0 0) (researchDict 0 0) (githubDict 0 0 0)
      = some (buildSnapshot 0 0 0 0 0 0 0 0 0 0 0 0 0 0 0) := by
  constructor
  · rfl
  · simp [calcSnapshot]

/-- C7 (amended): the score calculation is total on any complete field
mapping — with every field present (as every adapter guarantees on all
its paths) it always succeeds and yields finite rational scores; it does
not default missing fields to 0. -/
theorem C7_total_on_complete_fields (arc swe gpqa fm papers total qubits
    power gpu junior rev layoffs dep leg vc repos avgS avgF : ℚ) :
    calcSnapshot (aiDict arc swe gpqa fm) (infraDict power qubits gpu)
        (econDict junior layoffs rev) (instDict dep leg vc)
        (researchDict papers total) (githubDict repos avgS avgF)
      = some (buildSnapshot arc swe gpqa fm papers qubits power gpu junior
          rev layoffs dep leg vc repos) := by
  simp [calcSnapshot]

/-- In a state with an empty store and a list of distinct callers all
before their staleness check, running exactly those checks invokes the
fetch coordinator once per caller. -/
theorem run_all_ready {n : ℕ} (e : Env) (now : ℚ) (l : List (Fin n)) :
    ∀ s : SysState n, s.db = [] → (∀ i ∈ l, s.pcs i = CallerPc.ready) →
      l.Nodup → (run e now s l).fetchCalls = s.fetchCalls + l.length := by
  induction l with
  | nil => intro s _ _ _; simp [run]
  | cons i rest ih =>
      intro s hdb hready hnodup
      have hi : s.pcs i = CallerPc.ready := hready i (List.mem_cons_self i rest)
      have hstale : stale (latestOf s.db) now = true := by rw [hdb]; rfl
      have hstep : step e now s i =
          { s with fetchCalls := s.fetchCalls + 1,
                   pcs := Function.update s.pcs i CallerPc.fetching } := by
        simp [step, hi, hstale]
      have hnotmem : i ∉ rest := (List.nodup_cons.mp hnodup).1
      have hready2 : ∀ j ∈ rest,
          (Function.update s.pcs i CallerPc.fetching) j = CallerPc.ready := by
        intro j hj
        have hne : j ≠ i := fun hji => hnotmem (hji ▸ hj)
        rw [Function.update_noteq hne]
        exact hready j (List.mem_cons_of_mem i hj)
      show (run e now (step e now s i) rest).fetchCalls = _
      rw [hstep]
      rw [ih { db := s.db, fetchCalls := s.fetchCalls + 1,
               pcs := Function.update s.pcs i CallerPc.fetching } hdb hready2
        (List.nodup_cons.mp hnodup).2]
      simp [List.length_cons]
      omega

/-- C8 counterexample: two concurrent requests that both run their
staleness check against the empty store before either fetch completes
invoke the fetch coordinator twice, not once, and are simultaneously
mid-fetch. -/
theorem C8_counterexample :
    (run allFallbackEnv 0 (initState 2) [0, 1, 0, 1]).fetchCalls = 2 ∧
    ¬((run allFallbackEnv 0 (initState 2) [0, 1, 0, 1]).fetchCalls = 1) ∧
    (run allFallbackEnv 0 (initState 2) [0, 1]).pcs 0 = CallerPc.fetching ∧
    (run allFallbackEnv 0 (initState 2) [0, 1]).pcs 1 = CallerPc.fetching := by
  exact ⟨by decide, by decide, by decide, by decide⟩

/-- C8 (amended): the read endpoint has no single-flight guard and no
refreshing state — every one of n concurrent callers whose staleness
check precedes all fetch completions triggers its own refresh cycle, so
the coordinator is invoked n times, once per stale-observing caller. -/
theorem C8_n_flight (n : ℕ) :
    (run allFallbackEnv 0 (initState n) (List.finRange n)).fetchCalls = n := by
  rw [run_all_ready allFallbackEnv 0 (List.finRange n) (initState n) rfl
    (fun i _ => rfl) (List.nodup_finRange n)]
  simp [initState]

/-- C9 counterexample: a snapshot newly computed on the read endpoint's
refresh path can cross the threshold (composite index 38789/600 ≥ 60),
yet that endpoint schedules no alert task at all — the alert check lives
only in the manual update endpoint. -/
theorem C9_counterexample :
    get_current_metrics envHigh 0 none = some (responseOf snapHigh, true, []) ∧
    60 ≤ snapHigh.singularity_index := by
  constructor
  · simp [get_current_metrics, stale, fetch_envHigh_eq]
  · rw [snapHigh_index]; norm_num

/-- C9 (amended): only the manual update endpoint evaluates the alert
threshold; each of its invocations schedules exactly one alert iff the
newly created snapshot's index is at least 60, and over any sequence of
invocations the scheduled alerts are exactly one per qualifying snapshot
(each snapshot is evaluated once, so none ever gets a second alert). -/
theorem C9_alert_once_per_manual_snapshot :
    (∀ (e : Env) (s : MetricsSnapshot) (al : List ℚ),
      manual_update_metrics e = some (s, al) →
        al = if 60 ≤ s.singularity_index then [s.singularity_index] else []) ∧
    (∀ envs : List Env,
      (manualUpdateTrace envs).2 = (manualUpdateTrace envs).1.filterMap
        (fun s => if 60 ≤ s.singularity_index then some s.singularity_index
          else none)) := by
  have part1 : ∀ (e : Env) (s : MetricsSnapshot) (al : List ℚ),
      manual_update_metrics e = some (s, al) →
        al = if 60 ≤ s.singularity_index then [s.singularity_index] else [] := by
    intro e s al h
    obtain ⟨a1, a2, a3, a4, r1, q, p, g, j, rv, l, d, lg, v, rp, heq⟩ :=
      fetch_all_metrics_shape e
    rw [manual_update_metrics, heq, Option.map_some'] at h
    have h2 := Option.some.inj h
    rw [Prod.ext_iff] at h2
    obtain ⟨h3, h4⟩ := h2
    subst h3
    subst h4
    rfl
  refine ⟨part1, ?_⟩
  intro envs
  induction envs with
  | nil => rfl
  | cons e rest ih =>
      cases hm : manual_update_metrics e with
      | none => simp [manualUpdateTrace, hm, ih]
      | some v =>
          obtain ⟨s, al⟩ := v
          have hal := part1 e s al hm
          subst hal
          by_cases hq : 60 ≤ s.singularity_index
          · simp [manualUpdateTrace, hm, hq, List.filterMap_cons, ih]
          · simp [manualUpdateTrace, hm, hq, List.filterMap_cons, ih]

/-- C9 witness: the manual update on the `envHigh` cycle schedules
exactly the one alert carrying the new snapshot's index. -/
theorem C9_witness :
    ([38789 / 600] : List ℚ)
      = if (60 : ℚ) ≤ snapHigh.singularity_index
        then [snapHigh.singularity_index] else [] := by
  have hq : (60 : ℚ) ≤ snapHigh.singularity_index := by
    rw [snapHigh_index]; norm_num
  have h : manual_update_metrics envHigh = some (snapHigh, [38789 / 600]) := by
    rw [manual_update_metrics, fetch_envHigh_eq, Option.map_some', if_pos hq,
      snapHigh_index]
  exact C9_alert_once_per_manual_snapshot.1 envHigh snapHigh [38789 / 600] h
